import Mathlib

/-
Shallow embedding of the CAN-FD security gateway
(src/src/can_fd_defense_fair_gateway.py).

The admission-control core is modelled as pure functions:
timestamps are rationals, payload bytes are Fin 256, the per-identifier
timestamp dictionary is a total function defaulting to the empty list
(mirroring id_timestamps.get(msg_id, [])), and the fallible fixed-layout
decode struct.unpack("<HBB", data[:4]) returns an Option, with the
evaluation returning none exactly when the decode would raise.
-/

namespace Gateway

/-- Arrival timestamps: real-valued time modelled by the rationals. -/
abbrev Time := ℚ

/-- Decision outcome of one frame evaluation. -/
inductive Outcome
  | Forwarded
  | BlockedRateLimit
  | BlockedSemanticCheck
deriving DecidableEq

/-- One entry of the per-identifier policy table (max_rate, label, trusted),
as in the PER_ID_POLICY dictionary values of the source. -/
structure PolicyEntry where
  max_rate : Nat
  label : String
  trusted : Bool
deriving DecidableEq

/-- Legitimate critical traffic ID (source: LEGIT_ID = 0x200). -/
def LEGIT_ID : Nat := 0x200

/-- Attacker flood ID (source: FLOOD_ID = 0x001). -/
def FLOOD_ID : Nat := 0x001

/-- Per-ID rate limits and trust levels (source: PER_ID_POLICY). -/
def PER_ID_POLICY : List (Nat × PolicyEntry) :=
  [(LEGIT_ID, ⟨50, "LEGIT_ENGINE", true⟩),
   (FLOOD_ID, ⟨10, "UNTRUSTED_FLOOD", false⟩)]

/-- Default rate limit for IDs not in the policy table (source: DEFAULT_MAX_RATE). -/
def DEFAULT_MAX_RATE : Nat := 15

/-- The fallback policy used for identifiers absent from the table
(source: the default dictionary literal passed to PER_ID_POLICY.get). -/
def defaultPolicy : PolicyEntry :=
  ⟨DEFAULT_MAX_RATE, "UNKNOWN_ID", false⟩

/-- Policy lookup with default fallback (source: PER_ID_POLICY.get(msg_id, {...})). -/
def lookupPolicy (table : List (Nat × PolicyEntry)) (msg_id : Nat) : PolicyEntry :=
  match table.find? fun p => decide (p.1 = msg_id) with
  | some p => p.2
  | none => defaultPolicy

/-- Semantic plausibility check for engine data
(source: engine_payload_is_plausible, lines 62-76). -/
def engine_payload_is_plausible (rpm temp fuel : Int) : Bool :=
  if ¬(0 ≤ rpm ∧ rpm ≤ 8000) then false
  else if ¬(-40 ≤ temp ∧ temp ≤ 150) then false
  else if ¬(0 ≤ fuel ∧ fuel ≤ 100) then false
  else true

/-- Fixed-layout decode of struct.unpack("<HBB", data): little-endian 16-bit
unsigned rpm from the first two bytes, then two single bytes.  Python raises
struct.error unless the buffer is exactly 4 bytes; that failure is the none
branch. -/
def unpackHBB (data : List (Fin 256)) : Option (Int × Int × Int) :=
  match data with
  | [b0, b1, b2, b3] =>
      some ((b0.val : Int) + 256 * (b1.val : Int), (b2.val : Int), (b3.val : Int))
  | _ => none

/-- Sliding-window bookkeeping for one arrival (source lines 121-127):
purge timestamps at distance ≥ 1 second from now, append now, store the
result for msg_id and return its length as the observed rate. -/
def record_and_count (windows : Nat → List Time) (msg_id : Nat) (now : Time) :
    (Nat → List Time) × Nat :=
  let kept := (windows msg_id).filter fun ts => decide (now - ts < 1)
  let updated := kept ++ [now]
  (Function.update windows msg_id updated, updated.length)

/-- Mutable state of the gateway loop: the loaded policy table and the
per-identifier timestamp dictionary. -/
structure GatewayState where
  policies : List (Nat × PolicyEntry)
  id_timestamps : Nat → List Time

/-- One received frame: arbitration identifier, payload bytes, arrival time. -/
structure Frame where
  id : Nat
  payload : List (Fin 256)
  timestamp : Time

/-- One iteration of the defensive gateway loop for a received frame
(source lines 104-169): policy lookup, rate-window update, rate-limit
check, then the semantic check for LEGIT_ID payloads of at least 4 bytes.
The two final forwarding branches (FLOOD_ID and other IDs) differ only in
their log text and both forward.  none models a raised exception. -/
def evaluate (st : GatewayState) (f : Frame) : Option (Outcome × GatewayState) :=
  let policy := lookupPolicy st.policies f.id
  let rc := record_and_count st.id_timestamps f.id f.timestamp
  let st' : GatewayState := ⟨st.policies, rc.1⟩
  if rc.2 > policy.max_rate then
    some (Outcome.BlockedRateLimit, st')
  else if f.id = LEGIT_ID ∧ 4 ≤ f.payload.length then
    match unpackHBB (f.payload.take 4) with
    | some (rpm, temp, fuel) =>
        if engine_payload_is_plausible rpm temp fuel then
          some (Outcome.Forwarded, st')
        else
          some (Outcome.BlockedSemanticCheck, st')
    | none => none
  else
    some (Outcome.Forwarded, st')

/-- State at gateway start: the static policy table and no recorded arrivals. -/
def initState : GatewayState :=
  ⟨PER_ID_POLICY, fun _ => []⟩

/-- Replay of a sequence of arrivals of one identifier through the rate
tracker, starting from the empty dictionary. -/
def runArrivals (msg_id : Nat) (times : List Time) : Nat → List Time :=
  times.foldl (fun w t => (record_and_count w msg_id t).1) fun _ => []

/-- Configuration errors of the spec's policy-table constructor. -/
inductive ConfigError
  | DuplicatePolicy
deriving DecidableEq

/-- Modelled from the spec: the source holds PER_ID_POLICY as a dictionary
literal and has no table constructor, so the construction step is taken
from the spec's words: building the table from a list of entries fails
with ConfigError.DuplicatePolicy when two entries claim the same
identifier, and otherwise yields the entries unchanged. -/
def buildPolicyTable (entries : List (Nat × PolicyEntry)) :
    Except ConfigError (List (Nat × PolicyEntry)) :=
  if (entries.map Prod.fst).Nodup then Except.ok entries
  else Except.error ConfigError.DuplicatePolicy

/-- Concrete state whose FLOOD_ID window already holds ten recent arrivals. -/
def c1State : GatewayState :=
  ⟨PER_ID_POLICY, fun j => if j = FLOOD_ID then List.replicate 10 (1/2 : ℚ) else []⟩

/-- Eleventh FLOOD_ID arrival within the same second. -/
def c1Frame : Frame :=
  ⟨FLOOD_ID, [], 1⟩

/-- Trusted-identifier frame with an undersized (3-byte) payload. -/
def c3Frame : Frame :=
  ⟨LEGIT_ID, [0, 0, 0], 0⟩

/-- Frame with an identifier absent from the policy table. -/
def c5Frame : Frame :=
  ⟨0x777, [], 0⟩

/-- Frame on the demo identifier 0x123 with the demo payload. -/
def c8Frame : Frame :=
  ⟨0x123, [0x11, 0x22, 0x33, 0x44], 0⟩

/-- Characterisation of the plausibility predicate as a conjunction of the
three range checks. -/
lemma plausible_iff (rpm temp fuel : Int) :
    engine_payload_is_plausible rpm temp fuel = true ↔
      (0 ≤ rpm ∧ rpm ≤ 8000) ∧ (-40 ≤ temp ∧ temp ≤ 150) ∧ (0 ≤ fuel ∧ fuel ≤ 100) := by
  by_cases h1 : 0 ≤ rpm ∧ rpm ≤ 8000 <;>
    by_cases h2 : -40 ≤ temp ∧ temp ≤ 150 <;>
      by_cases h3 : 0 ≤ fuel ∧ fuel ≤ 100 <;>
        simp [ engine_payload_is_plausible, h1, h2, h3]

/-- Lists of length at least four start with four explicit elements. -/
lemma exists_cons4 {α : Type} (l : List α) (h : 4 ≤ l.length) :
    ∃ a b c d r, l = a :: b :: c :: d :: r := by
  match l, h with
  | a :: b :: c :: d :: r, _ => exact ⟨a, b, c, d, r, rfl⟩
  | [], h => simp at h
  | [a], h => simp at h
  | [a, b], h => simp at h
  | [a, b, c], h => simp at h

/-- The guarded fixed-layout decode of a long-enough payload succeeds. -/
lemma unpackHBB_take4 (l : List (Fin 256)) (h : 4 ≤ l.length) :
    (unpackHBB (l.take 4)).isSome = true := by
  obtain ⟨a, b, c, d, r, rfl⟩ := exists_cons4 l h
  rfl

/-- The window stored for the recorded identifier is the purged old window
with the new arrival appended. -/
lemma record_window (w : Nat → List Time) (msg_id : Nat) (now : Time) :
    (record_and_count w msg_id now).1 msg_id
      = (w msg_id).filter (fun ts => decide (now - ts < 1)) ++ [now] := by
  simp [ record_and_count, Function.update_same]

/-- Replaying one more arrival is one more record_and_count step. -/
lemma runArrivals_snoc (msg_id : Nat) (times : List Time) (a : Time) :
    runArrivals msg_id (times ++ [a])
      = (record_and_count (runArrivals msg_id times) msg_id a).1 := by
  simp [ runArrivals, List.foldl_append]

/-- Intermediate purges never lose an arrival that is still inside the
window of a later observation point u bounding all arrivals. -/
lemma runArrivals_filter (msg_id : Nat) (u : Time) :
    ∀ times : List Time, (∀ s ∈ times, s ≤ u) →
      ((runArrivals msg_id times) msg_id).filter (fun ts => decide (u - ts < 1))
        = times.filter fun ts => decide (u - ts < 1) := by
  intro times
  induction times using List.reverseRecOn with
  | nil => intro _; simp [ runArrivals]
  | append_singleton ts a ih =>
      intro hle
      have ha : a ≤ u := hle a (by simp)
      rw [runArrivals_snoc, record_window, List.filter_append, List.filter_filter]
      have hboth : ∀ x ∈ (runArrivals msg_id ts) msg_id,
          (decide (u - x < 1) && decide (a - x < 1)) = decide (u - x < 1) := by
        intro x _
        by_cases hx : u - x < 1
        · have hax : a - x < 1 := by linarith
          simp [hx, hax]
        · simp [hx]
      rw [List.filter_congr hboth, ih (fun s hs => hle s (by simp [hs]))]
      rw [List.filter_append]

/-- C1: for every frame whose recorded-and-counted rate exceeds the
applicable policy's max_rate, the evaluation returns BlockedRateLimit,
for any payload whatsoever, so semantic payload validation is never
reached. -/
theorem rate_limit_precedence (st : GatewayState) (f : Frame)
    (h : (lookupPolicy st.policies f.id).max_rate
          < (record_and_count st.id_timestamps f.id f.timestamp).2) :
    evaluate st f
      = some (Outcome.BlockedRateLimit,
          ⟨st.policies, (record_and_count st.id_timestamps f.id f.timestamp).1⟩) := by
  simp only [evaluate]
  rw [if_pos h]

/-- Witness for C1: the eleventh FLOOD_ID frame inside one second is over
its limit of 10 and gets blocked by rate. -/
theorem rate_limit_precedence_witness :
    (lookupPolicy c1State.policies c1Frame.id).max_rate
        < (record_and_count c1State.id_timestamps c1Frame.id c1Frame.timestamp).2
    ∧ (evaluate c1State c1Frame).map Prod.fst = some Outcome.BlockedRateLimit := by
  have hrate : (lookupPolicy c1State.policies c1Frame.id).max_rate
      < (record_and_count c1State.id_timestamps c1Frame.id c1Frame.timestamp).2 := by
    norm_num [ record_and_count, c1State, c1Frame, lookupPolicy, PER_ID_POLICY,
      FLOOD_ID, LEGIT_ID, List.replicate, List.filter]
  exact ⟨hrate, by rw [rate_limit_precedence c1State c1Frame hrate]; rfl⟩

/-- Counterexample to C3 as stated: a 3-byte payload on trusted LEGIT_ID
at in-limit rate is Forwarded by the code, not BlockedSemanticCheck. -/
theorem undersized_payload_counterexample :
    (record_and_count initState.id_timestamps c3Frame.id c3Frame.timestamp).2
        ≤ (lookupPolicy initState.policies c3Frame.id).max_rate
    ∧ (evaluate initState c3Frame).map Prod.fst = some Outcome.Forwarded
    ∧ some Outcome.Forwarded ≠ some Outcome.BlockedSemanticCheck := by
  decide

/-- C3 amended: a frame of the trusted identifier with a payload shorter
than the schema's 4 bytes and a rate within the policy limit is Forwarded
without any decode and without a crash. -/
theorem undersized_payload_forwarded (st : GatewayState) (f : Frame)
    (_hid : f.id = LEGIT_ID) (hlen : f.payload.length < 4)
    (hrate : (record_and_count st.id_timestamps f.id f.timestamp).2
        ≤ (lookupPolicy st.policies f.id).max_rate) :
    evaluate st f
      = some (Outcome.Forwarded,
          ⟨st.policies, (record_and_count st.id_timestamps f.id f.timestamp).1⟩) := by
  simp only [evaluate]
  rw [if_neg (not_lt.2 hrate), if_neg (fun hc => absurd hc.2 (by omega))]

/-- Witness for the amended C3 at the concrete 3-byte frame. -/
theorem undersized_payload_forwarded_witness :
    c3Frame.id = LEGIT_ID ∧ c3Frame.payload.length < 4
    ∧ (record_and_count initState.id_timestamps c3Frame.id c3Frame.timestamp).2
        ≤ (lookupPolicy initState.policies c3Frame.id).max_rate
    ∧ evaluate initState c3Frame
        = some (Outcome.Forwarded,
            ⟨initState.policies,
             (record_and_count initState.id_timestamps c3Frame.id c3Frame.timestamp).1⟩) :=
  ⟨rfl, by decide, by decide,
   undersized_payload_forwarded initState c3Frame rfl (by decide) (by decide)⟩

/-- C4: for every payload of at least 4 bytes (four leading bytes and any
tail), the validator decodes rpm as little-endian 16-bit unsigned,
temperature and fuel as 8-bit values, and returns false exactly when rpm
is outside [0, 8000], or temperature is outside [-40, 150], or fuel is
outside [0, 100]. -/
theorem engine_validator_decode_spec (b0 b1 b2 b3 : Fin 256) (rest : List (Fin 256)) :
    unpackHBB ((b0 :: b1 :: b2 :: b3 :: rest).take 4)
        = some ((b0.val : Int) + 256 * (b1.val : Int), (b2.val : Int), (b3.val : Int))
      ∧ (0 ≤ (b0.val : Int) + 256 * (b1.val : Int)
          ∧ (b0.val : Int) + 256 * (b1.val : Int) ≤ 65535)
      ∧ (0 ≤ (b2.val : Int) ∧ (b2.val : Int) ≤ 255)
      ∧ (0 ≤ (b3.val : Int) ∧ (b3.val : Int) ≤ 255)
      ∧ ( engine_payload_is_plausible
            ((b0.val : Int) + 256 * (b1.val : Int)) (b2.val : Int) (b3.val : Int) = false
          ↔ ¬(0 ≤ (b0.val : Int) + 256 * (b1.val : Int)
               ∧ (b0.val : Int) + 256 * (b1.val : Int) ≤ 8000)
            ∨ ¬((-40 : Int) ≤ (b2.val : Int) ∧ (b2.val : Int) ≤ 150)
            ∨ ¬((0 : Int) ≤ (b3.val : Int) ∧ (b3.val : Int) ≤ 100)) := by
  have hb0 := b0.isLt
  have hb1 := b1.isLt
  have hb2 := b2.isLt
  have hb3 := b3.isLt
  refine ⟨rfl, by constructor <;> omega, by constructor <;> omega,
    by constructor <;> omega, ?_⟩
  rw [Bool.eq_false_iff, ne_eq, plausible_iff]
  tauto

/-- C7: evaluation of any frame from any state completes with a decision
and never takes the raising branch of the fixed-layout decode. -/
theorem evaluate_never_raises (st : GatewayState) (f : Frame) :
    (evaluate st f).isSome = true := by
  simp only [evaluate]
  split
  · rfl
  split
  · next hcond =>
      have hs := unpackHBB_take4 f.payload hcond.2
      cases hu : unpackHBB (f.payload.take 4) with
      | none => rw [hu] at hs; simp at hs
      | some v =>
          obtain ⟨rpm, temp, fuel⟩ := v
          dsimp only
          split <;> rfl
  · rfl

/-- C10: with the unsigned 8-bit decode the temperature always lies in
[0, 255], so the lower bound -40 never rejects, and acceptance of a
4-byte-or-longer payload is equivalent to rpm ≤ 8000, temperature ≤ 150
and fuel ≤ 100. -/
theorem temperature_unsigned_acceptance (payload : List (Fin 256))
    (h : 4 ≤ payload.length) :
    ∃ rpm temp fuel : Int,
      unpackHBB (payload.take 4) = some (rpm, temp, fuel)
      ∧ 0 ≤ temp ∧ temp ≤ 255
      ∧ ( engine_payload_is_plausible rpm temp fuel = true
          ↔ rpm ≤ 8000 ∧ temp ≤ 150 ∧ fuel ≤ 100) := by
  obtain ⟨b0, b1, b2, b3, rest, rfl⟩ := exists_cons4 payload h
  have hb0 := b0.isLt
  have hb1 := b1.isLt
  have hb2 := b2.isLt
  have hb3 := b3.isLt
  refine ⟨_, _, _, rfl, by omega, by omega, ?_⟩
  rw [plausible_iff]
  constructor
  · rintro ⟨⟨_, hr⟩, ⟨_, ht⟩, ⟨_, hf⟩⟩
    exact ⟨hr, ht, hf⟩
  · rintro ⟨hr, ht, hf⟩
    refine ⟨⟨by omega, hr⟩, ⟨by omega, ht⟩, ⟨by omega, hf⟩⟩

/-- C2: for monotonically non-decreasing arrivals of one identifier,
record_and_count at time t purges every stored timestamp older than the
1-second window, appends t, and returns exactly the number of arrivals in
the half-open interval (t - 1, t] including the current one; the count on
a first sighting is 1. -/
theorem window_count_correct (msg_id : Nat) (times : List Time) (t : Time)
    (hmono : List.Sorted (· ≤ ·) (times ++ [t])) :
    (record_and_count (runArrivals msg_id times) msg_id t).2
        = ((times ++ [t]).filter fun s => decide (t - 1 < s ∧ s ≤ t)).length
      ∧ (record_and_count (runArrivals msg_id times) msg_id t).1 msg_id
        = ((runArrivals msg_id times) msg_id).filter (fun ts => decide (t - ts < 1)) ++ [t]
      ∧ (record_and_count (fun _ => []) msg_id t).2 = 1 := by
  have hle : ∀ s ∈ times, s ≤ t := by
    have hpw : List.Pairwise (· ≤ ·) (times ++ [t]) := hmono
    rw [List.pairwise_append] at hpw
    intro s hs
    exact hpw.2.2 s hs t (by simp)
  refine ⟨?_, record_window _ _ _, by simp [ record_and_count]⟩
  have h1 := runArrivals_filter msg_id t times hle
  have hpoint : ∀ s ∈ times, (decide (t - s < 1)) = (decide (t - 1 < s ∧ s ≤ t)) := by
    intro s hs
    have hst := hle s hs
    simp only [decide_eq_decide]
    constructor
    · intro hlt
      exact ⟨by linarith, hst⟩
    · rintro ⟨hgt, _⟩
      linarith
  have ht : ([t].filter fun s => decide (t - 1 < s ∧ s ≤ t)) = [t] := by
    simp
  simp only [ record_and_count]
  rw [h1, List.filter_congr hpoint, List.filter_append, ht]

/-- Witness for C2: arrivals at 0 and 1, current call at 1; only the two
arrivals at 1 lie inside (0, 1], so the count is 2. -/
theorem window_count_correct_witness :
    List.Sorted (· ≤ ·) (([0, 1] : List Time) ++ [1])
    ∧ (record_and_count (runArrivals 7 [0, 1]) 7 1).2
        = ((([0, 1] : List Time) ++ [1]).filter
            fun s => decide ((1 : ℚ) - 1 < s ∧ s ≤ 1)).length :=
  ⟨by decide, (window_count_correct 7 [0, 1] 1 (by decide)).1⟩

/-- C5: an identifier absent from the policy table falls back to the
default policy (DEFAULT_MAX_RATE, "UNKNOWN_ID", untrusted), receives no
semantic payload check for any payload, and is Forwarded whenever its
observed rate does not exceed the default max_rate. -/
theorem unknown_id_default (st : GatewayState) (f : Frame)
    (hpol : st.policies = PER_ID_POLICY)
    (habs : ∀ p ∈ PER_ID_POLICY, p.1 ≠ f.id)
    (hrate : (record_and_count st.id_timestamps f.id f.timestamp).2 ≤ DEFAULT_MAX_RATE) :
    lookupPolicy st.policies f.id = defaultPolicy
    ∧ evaluate st f
        = some (Outcome.Forwarded,
            ⟨st.policies, (record_and_count st.id_timestamps f.id f.timestamp).1⟩) := by
  have hL : LEGIT_ID ≠ f.id :=
    habs (LEGIT_ID, ⟨50, "LEGIT_ENGINE", true⟩) (by simp [ PER_ID_POLICY])
  have hfind : PER_ID_POLICY.find? (fun p => decide (p.1 = f.id)) = none := by
    rw [List.find?_eq_none]
    intro p hp
    simp only [decide_eq_true_eq]
    exact habs p hp
  have hlook : lookupPolicy st.policies f.id = defaultPolicy := by
    rw [hpol]
    unfold lookupPolicy
    rw [hfind]
  refine ⟨hlook, ?_⟩
  simp only [evaluate]
  rw [hlook,
    if_neg (show ¬(record_and_count st.id_timestamps f.id f.timestamp).2
        > defaultPolicy.max_rate from not_lt.2 hrate),
    if_neg (fun hc => hL hc.1.symm)]

/-- Witness for C5: unknown identifier 0x777 at rate 1 is forwarded under
the default policy. -/
theorem unknown_id_default_witness :
    (∀ p ∈ PER_ID_POLICY, p.1 ≠ c5Frame.id)
    ∧ (record_and_count initState.id_timestamps c5Frame.id c5Frame.timestamp).2
        ≤ DEFAULT_MAX_RATE
    ∧ lookupPolicy initState.policies c5Frame.id = defaultPolicy
    ∧ evaluate initState c5Frame
        = some (Outcome.Forwarded,
            ⟨initState.policies,
             (record_and_count initState.id_timestamps c5Frame.id c5Frame.timestamp).1⟩) :=
  ⟨by decide, by decide,
   (unknown_id_default initState c5Frame rfl (by decide) (by decide)).1,
   (unknown_id_default initState c5Frame rfl (by decide) (by decide)).2⟩

/-- C6: policy-table construction fails with DuplicatePolicy exactly when
two entries claim the same identifier, and a successfully built table is
the given entries with pairwise-distinct identifiers. -/
theorem policy_table_duplicate_detection (entries : List (Nat × PolicyEntry)) :
    (buildPolicyTable entries = Except.error ConfigError.DuplicatePolicy
        ↔ ¬ entries.Pairwise fun p q => p.1 ≠ q.1)
      ∧ ∀ t, buildPolicyTable entries = Except.ok t
          → t = entries ∧ t.Pairwise fun p q => p.1 ≠ q.1 := by
  have hiff : (entries.map Prod.fst).Nodup ↔ entries.Pairwise fun p q => p.1 ≠ q.1 := by
    unfold List.Nodup
    rw [List.pairwise_map]
  unfold buildPolicyTable
  by_cases h : (entries.map Prod.fst).Nodup
  · rw [if_pos h]
    constructor
    · constructor
      · intro hcontra
        exact absurd hcontra (by simp)
      · intro hnp
        exact absurd (hiff.1 h) hnp
    · intro t ht
      simp only [Except.ok.injEq] at ht
      subst ht
      exact ⟨rfl, hiff.1 h⟩
  · rw [if_neg h]
    constructor
    · exact iff_of_true rfl (fun hp => h (hiff.2 hp))
    · intro t ht
      exact absurd ht (by simp)

/-- Witness for C6: two entries for LEGIT_ID make construction fail. -/
theorem policy_table_duplicate_detection_witness :
    buildPolicyTable [(LEGIT_ID, defaultPolicy), (LEGIT_ID, defaultPolicy)]
        = Except.error ConfigError.DuplicatePolicy
    ∧ ¬ ([(LEGIT_ID, defaultPolicy), (LEGIT_ID, defaultPolicy)].Pairwise
          fun p q => p.1 ≠ q.1) := by
  have hdup : ¬ ([(LEGIT_ID, defaultPolicy), (LEGIT_ID, defaultPolicy)].Pairwise
      fun p q => p.1 ≠ q.1) := by
    simp [List.pairwise_cons]
  exact ⟨(policy_table_duplicate_detection _).1.mpr hdup, hdup⟩

/-- State produced by a successful evaluation: policies preserved, only
the evaluated identifier's window replaced. -/
lemma evaluate_state_eq (st : GatewayState) (f : Frame) (d : Outcome)
    (st' : GatewayState) (h : evaluate st f = some (d, st')) :
    st' = ⟨st.policies, (record_and_count st.id_timestamps f.id f.timestamp).1⟩ := by
  simp only [evaluate] at h
  split at h
  · simp only [Option.some.injEq, Prod.mk.injEq] at h
    exact h.2.symm
  split at h
  · rcases hu : unpackHBB (f.payload.take 4) with _ | ⟨rpm, temp, fuel⟩
    · rw [hu] at h
      simp at h
    · rw [hu] at h
      dsimp only at h
      split at h <;>
        (simp only [Option.some.injEq, Prod.mk.injEq] at h; exact h.2.symm)
  · simp only [Option.some.injEq, Prod.mk.injEq] at h
    exact h.2.symm

/-- C8: evaluating a frame mutates only the rate-window sequence of the
frame's own identifier; the policy table and every other identifier's
window are unchanged. -/
theorem evaluate_mutates_only_own_window (st : GatewayState) (f : Frame)
    (d : Outcome) (st' : GatewayState) (h : evaluate st f = some (d, st')) :
    st'.policies = st.policies
    ∧ ∀ j, j ≠ f.id → st'.id_timestamps j = st.id_timestamps j := by
  have hst := evaluate_state_eq st f d st' h
  subst hst
  refine ⟨rfl, fun j hj => ?_⟩
  simp only [ record_and_count]
  exact Function.update_noteq hj _ _

/-- Witness for C8: after a frame on 0x123, the LEGIT_ID window and the
policy table are untouched. -/
theorem evaluate_mutates_only_own_window_witness :
    evaluate initState c8Frame
        = some (Outcome.Forwarded,
            ⟨initState.policies,
             (record_and_count initState.id_timestamps c8Frame.id c8Frame.timestamp).1⟩)
    ∧ (⟨initState.policies,
        (record_and_count initState.id_timestamps c8Frame.id c8Frame.timestamp).1⟩
          : GatewayState).id_timestamps LEGIT_ID
        = initState.id_timestamps LEGIT_ID := by
  have hev : evaluate initState c8Frame
      = some (Outcome.Forwarded,
          ⟨initState.policies,
           (record_and_count initState.id_timestamps c8Frame.id c8Frame.timestamp).1⟩) := rfl
  exact ⟨hev,
    (evaluate_mutates_only_own_window initState c8Frame _ _ hev).2 LEGIT_ID (by decide)⟩

/-- C9: two frames with the same identifier and timestamp, evaluated from
the same state, whose payloads both have length at least 4 and agree on
the first 4 bytes, receive identical decisions. -/
theorem payload_tail_irrelevant (st : GatewayState) (i : Nat) (t : Time)
    (p1 p2 : List (Fin 256)) (h1 : 4 ≤ p1.length) (h2 : 4 ≤ p2.length)
    (h4 : p1.take 4 = p2.take 4) :
    (evaluate st ⟨i, p1, t⟩).map Prod.fst = (evaluate st ⟨i, p2, t⟩).map Prod.fst := by
  simp only [evaluate]
  by_cases hr : (record_and_count st.id_timestamps i t).2
      > (lookupPolicy st.policies i).max_rate
  · rw [if_pos hr, if_pos hr]
  · rw [if_neg hr, if_neg hr]
    by_cases hi : i = LEGIT_ID
    · rw [if_pos ⟨hi, h1⟩, if_pos ⟨hi, h2⟩, h4]
    · rw [if_neg (fun hc => hi hc.1), if_neg (fun hc => hi hc.1)]

/-- Witness for C9: the engine payload and the same payload with a trailing
extra byte receive the same decision. -/
theorem payload_tail_irrelevant_witness :
    4 ≤ ([0xC4, 0x09, 0x5A, 0x46] : List (Fin 256)).length
    ∧ 4 ≤ ([0xC4, 0x09, 0x5A, 0x46, 0xFF] : List (Fin 256)).length
    ∧ ([0xC4, 0x09, 0x5A, 0x46] : List (Fin 256)).take 4
        = ([0xC4, 0x09, 0x5A, 0x46, 0xFF] : List (Fin 256)).take 4
    ∧ (evaluate initState ⟨LEGIT_ID, [0xC4, 0x09, 0x5A, 0x46], 0⟩).map Prod.fst
        = (evaluate initState ⟨LEGIT_ID, [0xC4, 0x09, 0x5A, 0x46, 0xFF], 0⟩).map Prod.fst :=
  ⟨by decide, by decide, by decide,
   payload_tail_irrelevant initState LEGIT_ID 0 _ _ (by decide) (by decide) (by decide)⟩

/-- Witness for C10 at the concrete payload DE AD BE EF. -/
theorem temperature_unsigned_acceptance_witness :
    4 ≤ ([0xDE, 0xAD, 0xBE, 0xEF] : List (Fin 256)).length
    ∧ ∃ rpm temp fuel : Int,
        unpackHBB (([0xDE, 0xAD, 0xBE, 0xEF] : List (Fin 256)).take 4)
            = some (rpm, temp, fuel)
        ∧ 0 ≤ temp ∧ temp ≤ 255
        ∧ ( engine_payload_is_plausible rpm temp fuel = true
            ↔ rpm ≤ 8000 ∧ temp ≤ 150 ∧ fuel ≤ 100) :=
  ⟨by decide, temperature_unsigned_acceptance [0xDE, 0xAD, 0xBE, 0xEF] (by decide)⟩

end Gateway
